import Mathlib

/-!
Shallow embedding of `src/update_shipping.py`, the shipment-reconciliation
script: carrier (CTT) status fetch with retries, a status translation table,
an idempotency guard for Shopify fulfillment events, a SQLite-backed shipment
ledger, incident marking, and the per-shipment batch loop.

Modelling conventions:
* ISO-8601 timestamps (`datetime` values and their `isoformat()` strings,
  which the script compares as SQLite TEXT) are represented by integers
  (`Time := Int`, seconds); chronological order is the integer order.
  `timedelta(days=d)`, `(hours=h)`, `(minutes=m)` become `d*86400`, `h*3600`,
  `m*60`.
* The SQLite `shipments` table is a `List Shipment`; each `db_*` helper is
  the pure effect of the corresponding SQL statement on that list.
* HTTP traffic is passed in as data: the CTT fetch consumes a list of
  per-attempt outcomes, the Shopify event POST consumes an `HttpResponse`,
  and `process_one` receives the fetched fulfillment events and a response
  function for its POSTs.  Sleeps are recorded as the deterministic
  (pre-jitter) wait durations in `ℚ` seconds.
* Configuration constants carry the script defaults (`os.getenv` fallbacks).
-/

set_option linter.unusedVariables false

namespace UpdateShipping

/-- Timestamps, in seconds; stands for the ISO strings the script stores. -/
abbrev Time := Int

/-! ### Configuration defaults (src/update_shipping.py lines 25-42) -/

def MAX_SHOPIFY_ORDERS : Nat := 500

def INCIDENT_AFTER_DAYS : Nat := 4

def INCIDENT_RECHECK_HOURS : Nat := 24

def INCIDENT_STATUS : String := "failure"

def NORMAL_RECHECK_MINUTES : Nat := 0

def CTT_MAX_RETRIES : Nat := 6

def CTT_BASE_BACKOFF : ℚ := 7/10

def CTT_MAX_BACKOFF : ℚ := 25

/-- `safe_snippet` (line 79): truncate to `n` chars, newlines to spaces. -/
def safe_snippet (text : String) (n : Nat) : String :=
  ((text.take n).replace "\n" " ").replace "\r" " "

/-- An HTTP response as the script observes it: status code, body text and
the Retry-After header (which the script in fact never reads). -/
structure HttpResponse where
  status_code : Nat
  text : String
  retry_after : Option ℚ
deriving Repr, DecidableEq

/-- `create_shopify_event` (lines 146-155): a single POST; 201 is success,
anything else returns failure with the status code and a body snippet.
There is no loop around the POST.  (The source wraps the status value of the
error string in single quotes; the quotes are omitted here.) -/
def create_shopify_event (r : HttpResponse) : Bool × Option String :=
  if r.status_code = 201 then (true, none)
  else (false, some (toString r.status_code ++ " - " ++ safe_snippet r.text 220))

/-! ### CTT fetch (lines 187-251) -/

/-- One entry of `data.shipping_history.events`; `description` is `none` when
the key is absent (the script then substitutes "Estado desconocido"). -/
structure CttEvent where
  description : Option String
  event_date : Option Time
deriving Repr, DecidableEq

/-- The dictionary `get_ctt_status` returns: `{"status": ..., "date": ...}`. -/
structure CttObservation where
  status : Option String
  date : Option Time
deriving Repr, DecidableEq

/-- Parse outcome of a 200 response body. -/
inductive CttBody where
  | blank
  | notJson
  | errField
  | payload (events : List CttEvent)
deriving Repr, DecidableEq

/-- Outcome of one attempt of `CTT_SESSION.get`. -/
inductive CttAttempt where
  | net (msg : String)
  | resp (code : Nat) (retry_after : Option ℚ) (body : CttBody)
deriving Repr, DecidableEq

/-- `min(CTT_BASE_BACKOFF * (2 ** (attempt - 1)), CTT_MAX_BACKOFF)` -/
def backoffWait (attempt : Nat) : ℚ :=
  min (CTT_BASE_BACKOFF * 2 ^ (attempt - 1)) CTT_MAX_BACKOFF

/-- The retry loop body of `get_ctt_status` (lines 192-251).  `attempt` is
the 1-based loop counter of `for attempt in range(1, CTT_MAX_RETRIES + 1)`;
the list supplies the outcome of each successive request.  Returns the
observation together with the (pre-jitter) sleep durations.  Falling off the
end of the loop returns `{"status": None, "date": None}`, exactly like every
other give-up path.  The Retry-After header of a 429 is never consulted. -/
def get_ctt_status_go : Nat → List CttAttempt → CttObservation × List ℚ
  | _, [] => (⟨none, none⟩, [])
  | attempt, a :: rest =>
    if CTT_MAX_RETRIES < attempt then (⟨none, none⟩, [])
    else
      match a with
      | .net _ =>
        let r := get_ctt_status_go (attempt + 1) rest
        (r.1, backoffWait attempt :: r.2)
      | .resp code _ body =>
        if code = 429 then
          let r := get_ctt_status_go (attempt + 1) rest
          (r.1, backoffWait attempt :: r.2)
        else if code ≠ 200 then
          if 500 ≤ code ∧ code < 600 ∧ attempt < CTT_MAX_RETRIES then
            let r := get_ctt_status_go (attempt + 1) rest
            (r.1, backoffWait attempt :: r.2)
          else (⟨none, none⟩, [])
        else
          match body with
          | .blank =>
            if attempt < CTT_MAX_RETRIES then
              let r := get_ctt_status_go (attempt + 1) rest
              (r.1, CTT_BASE_BACKOFF * (attempt : ℚ) :: r.2)
            else (⟨none, none⟩, [])
          | .notJson =>
            if attempt < CTT_MAX_RETRIES then
              let r := get_ctt_status_go (attempt + 1) rest
              (r.1, CTT_BASE_BACKOFF * (attempt : ℚ) :: r.2)
            else (⟨none, none⟩, [])
          | .errField => (⟨none, none⟩, [])
          | .payload evs =>
            match evs.getLast? with
            | none => (⟨some "Sin eventos", none⟩, [])
            | some le =>
              (⟨some (le.description.getD "Estado desconocido"), le.event_date⟩, [])

/-- `get_ctt_status` (lines 187-251) given the successive request outcomes. -/
def get_ctt_status (attempts : List CttAttempt) : CttObservation × List ℚ :=
  get_ctt_status_go 1 attempts

/-- `map_ctt_to_shopify` (lines 172-184): a dict lookup whose default for any
unknown status text is "in_transit". -/
def map_ctt_to_shopify (status : String) : String :=
  if status = "En reparto" then "out_for_delivery"
  else if status = "Entrega hoy" then "out_for_delivery"
  else if status = "Entregado" then "delivered"
  else if status = "En tránsito" then "in_transit"
  else if status = "En transito" then "in_transit"
  else if status = "Recogido" then "in_transit"
  else if status = "Pendiente de recepción en CTT Express" then "confirmed"
  else if status = "Reparto fallido" then "failure"
  else "in_transit"

/-! ### Shipment ledger (SQLite, lines 265-370) -/

/-- One row of the `shipments` table (lines 266-291). -/
structure Shipment where
  order_id : Nat
  fulfillment_id : Nat
  tracking_number : Option String
  shipped_at : Option Time
  is_delivered : Bool
  delivered_at : Option Time
  is_incident : Bool
  incident_marked_at : Option Time
  last_ctt_status : Option String
  last_ctt_event_at : Option Time
  last_shopify_status : Option String
  last_checked_at : Option Time
  next_check_at : Option Time
  last_error : Option String
deriving Repr, DecidableEq

/-- The `WHERE order_id=? AND fulfillment_id=?` key match (PRIMARY KEY). -/
def sameKey (oid fid : Nat) (s : Shipment) : Bool :=
  s.order_id == oid && s.fulfillment_id == fid

/-- `db_upsert_shipment` (lines 296-307): `INSERT ... ON CONFLICT DO UPDATE
SET tracking_number=excluded.tracking_number,
shipped_at=COALESCE(shipments.shipped_at, excluded.shipped_at)`.  Unset
columns of a fresh row take the table defaults (lines 266-291). -/
def db_upsert_shipment (table : List Shipment) (oid fid : Nat)
    (tracking_number : String) (shipped_at : Option Time) : List Shipment :=
  if table.any (sameKey oid fid) then
    table.map (fun s =>
      if sameKey oid fid s then
        { s with tracking_number := some tracking_number,
                 shipped_at := if s.shipped_at.isSome then s.shipped_at else shipped_at }
      else s)
  else
    table ++ [⟨oid, fid, some tracking_number, shipped_at, false, none, false, none,
               none, none, none, none, none, none⟩]

/-- `db_mark_delivered` (lines 310-319). -/
def db_mark_delivered (table : List Shipment) (oid fid : Nat)
    (delivered_at : Option Time) : List Shipment :=
  table.map (fun s =>
    if sameKey oid fid s then
      { s with is_delivered := true, delivered_at := delivered_at, next_check_at := none }
    else s)

/-- `db_set_incident` (lines 322-331):
`incident_marked_at=COALESCE(incident_marked_at, ?)`. -/
def db_set_incident (table : List Shipment) (oid fid : Nat)
    (marked_at : Time) : List Shipment :=
  table.map (fun s =>
    if sameKey oid fid s then
      { s with is_incident := true,
               incident_marked_at :=
                 if s.incident_marked_at.isSome then s.incident_marked_at
                 else some marked_at }
    else s)

/-- `db_update_check` (lines 334-354); `now` stands for
`datetime.now(TZ).isoformat()`. -/
def db_update_check (table : List Shipment) (oid fid : Nat) (now : Time)
    (ctt_status : Option String) (ctt_event_at : Option Time)
    (shopify_status : Option String) (next_check_at : Option Time)
    (last_error : Option String) : List Shipment :=
  table.map (fun s =>
    if sameKey oid fid s then
      { s with last_checked_at := some now, next_check_at := next_check_at,
               last_ctt_status := ctt_status, last_ctt_event_at := ctt_event_at,
               last_shopify_status := shopify_status, last_error := last_error }
    else s)

/-- The `WHERE is_delivered=0 AND (next_check_at IS NULL OR next_check_at <= ?)`
filter of `db_get_pending` (lines 363-364). -/
def pendingPred (now : Time) (s : Shipment) : Bool :=
  !s.is_delivered &&
    (match s.next_check_at with
     | none => true
     | some t => decide (t ≤ now))

/-- Insertion of one element into a list sorted by `le`. -/
def insertLe {α : Type} (le : α → α → Bool) (x : α) : List α → List α
  | [] => [x]
  | y :: ys => if le x y then x :: y :: ys else y :: insertLe le x ys

/-- Insertion sort by `le`; models the `ORDER BY` of the pending query. -/
def sortLe {α : Type} (le : α → α → Bool) : List α → List α
  | [] => []
  | x :: xs => insertLe le x (sortLe le xs)

/-- `COALESCE(last_checked_at, '1970-01-01')`: the epoch is time `0`. -/
def checkedKey (s : Shipment) : Time :=
  s.last_checked_at.getD 0

/-- `db_get_pending` (lines 357-370): filter, `ORDER BY
COALESCE(last_checked_at,'1970-01-01') ASC`, `LIMIT ?`. -/
def db_get_pending (table : List Shipment) (now : Time) (limit : Nat) : List Shipment :=
  (sortLe (fun a b => decide (checkedKey a ≤ checkedKey b))
    (table.filter (pendingPred now))).take limit

/-! ### Shopify fulfillment events -/

/-- A fulfillment event as posted/fetched (`{status, message, created_at}`). -/
structure ShopifyEvent where
  status : String
  message : String
  created_at : Option Time
deriving Repr, DecidableEq

/-- `fulfillment_has_status` (lines 142-143). -/
def fulfillment_has_status (events : List ShopifyEvent) (status : String) : Bool :=
  events.any (fun ev => ev.status == status)

/-! ### process_one (lines 402-548) -/

/-- External inputs of one reconciliation cycle: the clock, the CTT
observation returned by `get_ctt_status`, the fulfillment events returned by
`get_fulfillment_events`, and the response each `create_shopify_event` POST
(keyed by its status and message arguments) would receive. -/
structure Env where
  now : Time
  ctt : CttObservation
  shopify_events : List ShopifyEvent
  post : String → String → HttpResponse

/-- `map_ctt_to_shopify(ctt_status) if ctt_status else None` (line 418);
Python truthiness makes both `None` and `""` fall to `None`. -/
def mapped_of (ctt_status : Option String) : Option String :=
  match ctt_status with
  | none => none
  | some s => if s = "" then none else some (map_ctt_to_shopify s)

/-- The incident test (lines 421-424): `shipped_dt` known and
`now - shipped_dt >= timedelta(days=INCIDENT_AFTER_DAYS)`. -/
def should_incident_at (now : Time) (shipped_at : Option Time) : Bool :=
  match shipped_at with
  | none => false
  | some sd => decide ((INCIDENT_AFTER_DAYS : Int) * 86400 ≤ now - sd)

/-- `f"Estado CTT: {ctt_status}"` (Python renders `None` as "None"). -/
def ctt_message (ctt_status : Option String) : String :=
  "Estado CTT: " ++ ctt_status.getD "None"

/-- The incident event message (line 522). -/
def incident_message : String :=
  "Incidencia: +" ++ toString INCIDENT_AFTER_DAYS ++ " días sin entregar desde envío"

/-- Result of one cycle: the ledger afterwards and the Shopify events the
cycle created, in creation order. -/
structure ProcResult where
  table : List Shipment
  created : List ShopifyEvent

/-- `process_one` (lines 402-548).  Arguments mirror the source: the ledger
(`conn`), then the columns destructured from the pending row.  Numbered
comments match the source's own step comments. -/
def process_one (env : Env) (table : List Shipment) (order_id fulfillment_id : Nat)
    (tracking_number : String) (shipped_at : Option Time)
    (is_incident : Bool) (last_shopify_status : Option String) : ProcResult :=
  let now := env.now
  let ctt_status := env.ctt.status
  -- parse_dt_any(ctt_event_str) or now  (line 415)
  let ctt_dt : Time := (env.ctt.date).getD now
  let mapped_status := mapped_of ctt_status
  let should_incident := should_incident_at now shipped_at
  -- 4) CTT says delivered => create delivered (once) and close
  if mapped_status = some "delivered" then
    let events := env.shopify_events
    if fulfillment_has_status events "delivered" then
      let t := db_mark_delivered table order_id fulfillment_id (some ctt_dt)
      let t := db_update_check t order_id fulfillment_id now ctt_status (some ctt_dt)
        (some "delivered") none none
      ⟨t, []⟩
    else
      let msg := ctt_message ctt_status
      let res := create_shopify_event (env.post "delivered" msg)
      if res.1 then
        let t := db_mark_delivered table order_id fulfillment_id (some ctt_dt)
        let t := db_update_check t order_id fulfillment_id now ctt_status (some ctt_dt)
          (some "delivered") none none
        ⟨t, [⟨"delivered", msg, some ctt_dt⟩]⟩
      else
        let t := db_update_check table order_id fulfillment_id now ctt_status (some ctt_dt)
          last_shopify_status (some (now + 10 * 60)) res.2
        ⟨t, []⟩
  else
    -- 5) Shopify already has delivered (by any means) => close
    let events := env.shopify_events
    if fulfillment_has_status events "delivered" then
      let t := db_mark_delivered table order_id fulfillment_id none
      let t := db_update_check t order_id fulfillment_id now ctt_status (some ctt_dt)
        (some "delivered") none none
      ⟨t, []⟩
    else
      -- 6) only create the event if the new status is absent from Shopify
      --    and changed vs the DB; yields (error_msg, posted_status, created)
      let step6 : Option String × Option String × List ShopifyEvent :=
        match mapped_status with
        | none => (none, last_shopify_status, [])
        | some m =>
          if some m ≠ last_shopify_status then
            if fulfillment_has_status events m then (none, some m, [])
            else
              let msg := ctt_message ctt_status
              let res := create_shopify_event (env.post m msg)
              if res.1 then (none, some m, [⟨m, msg, some ctt_dt⟩])
              else (some ("Shopify event " ++ m ++ " failed: " ++ (res.2).getD ""),
                    last_shopify_status, [])
          else (none, last_shopify_status, [])
      -- 7) incident (> INCIDENT_AFTER_DAYS days) — marked once
      let step7 : Option String × List Shipment × List ShopifyEvent :=
        if should_incident && !is_incident then
          if fulfillment_has_status events INCIDENT_STATUS then
            (step6.1, db_set_incident table order_id fulfillment_id now, [])
          else
            let res := create_shopify_event (env.post INCIDENT_STATUS incident_message)
            if res.1 then
              (step6.1, db_set_incident table order_id fulfillment_id now,
               [⟨INCIDENT_STATUS, incident_message, some now⟩])
            else
              (if (step6.1).isSome then step6.1
               else some ("Incident event failed: " ++ (res.2).getD ""),
               table, [])
        else (step6.1, table, [])
      -- 8) schedule the next check
      let next_check : Option Time :=
        if should_incident || is_incident then
          some (now + (INCIDENT_RECHECK_HOURS : Int) * 3600)
        else if NORMAL_RECHECK_MINUTES = 0 then none
        else some (now + (NORMAL_RECHECK_MINUTES : Int) * 60)
      let t := db_update_check step7.2.1 order_id fulfillment_id now ctt_status
        (some ctt_dt) step6.2.1 next_check step7.1
      ⟨t, step6.2.2 ++ step7.2.2⟩

/-! ### The batch loop of main (lines 568-594) -/

/-- How processing one pending shipment can go, as the batch loop sees it:
normal execution with the given external inputs, an exception out of
`process_one` (caught by the per-shipment handler, whose own ledger write
succeeds), or the case where that handler's ledger write itself raises —
sqlite errors there are caught by nothing and abort the run. -/
inductive StepOutcome where
  | ok (env : Env)
  | exn (msg : String)
  | ledgerDown (msg : String)

/-- The body of the `except` branch (lines 584-594): record the exception and
schedule a retry 30 minutes out. -/
def handle_exn (table : List Shipment) (oid fid : Nat) (now : Time)
    (last_shopify_status : Option String) (msg : String) : List Shipment :=
  db_update_check table oid fid now none none last_shopify_status
    (some (now + 30 * 60)) (some msg)

/-- The `for ... in pending` loop of `main` (lines 571-594) over the rows
returned by `db_get_pending`, with `oracle` assigning each (order,
fulfillment) pair its `StepOutcome`.  Rows with a falsy tracking number are
skipped (`if not tracking_number: continue`). -/
def run_batch (now : Time) (oracle : Nat → Nat → StepOutcome) :
    List Shipment → List Shipment → Except String (List Shipment × List ShopifyEvent)
  | table, [] => .ok (table, [])
  | table, row :: rest =>
    match row.tracking_number with
    | none => run_batch now oracle table rest
    | some tn =>
      if tn = "" then run_batch now oracle table rest
      else
        match oracle row.order_id row.fulfillment_id with
        | .ok env =>
          let r := process_one env table row.order_id row.fulfillment_id tn
            row.shipped_at row.is_incident row.last_shopify_status
          match run_batch now oracle r.table rest with
          | .ok p => .ok (p.1, r.created ++ p.2)
          | .error e => .error e
        | .exn msg =>
          run_batch now oracle
            (handle_exn table row.order_id row.fulfillment_id now
              row.last_shopify_status msg) rest
        | .ledgerDown msg => .error msg

/-! ### Spec-side definitions, for refutation only -/

/-- Modelled from the spec: the rank of a platform status category in the
fixed taxonomy, in the progression order the spec lists in section 3
(`confirmed, in_transit, out_for_delivery, ready_for_pickup,
attempted_delivery, failure, delivered`), with `none`/unknown at rank 0.
Used only to contrast the spec's monotonicity claim with the code. -/
def spec_rank (status : String) : Nat :=
  if status = "confirmed" then 1
  else if status = "in_transit" then 2
  else if status = "out_for_delivery" then 3
  else if status = "ready_for_pickup" then 4
  else if status = "attempted_delivery" then 5
  else if status = "failure" then 6
  else if status = "delivered" then 7
  else 0

/-- Modelled from the spec: the defensive timestamp order on carrier events,
"entries with unparsable dates sort first, never last". -/
def spec_date_le (a b : CttEvent) : Bool :=
  match a.event_date, b.event_date with
  | none, _ => true
  | some _, none => false
  | some x, some y => decide (x ≤ y)

/-- Modelled from the spec: the chronologically-last carrier event after the
defensive re-sort the spec prescribes for the resolver. -/
def spec_chronological_last (evs : List CttEvent) : Option CttEvent :=
  (sortLe spec_date_le evs).getLast?

/-! ### Helper lemmas -/

theorem mem_insertLe {α : Type} (le : α → α → Bool) (x a : α) :
    ∀ l : List α, a ∈ insertLe le x l ↔ a = x ∨ a ∈ l
  | [] => by simp [insertLe]
  | y :: ys => by
    simp only [insertLe]
    by_cases h : le x y = true
    · simp [h]
    · simp only [h, if_false, Bool.false_eq_true, ite_false, List.mem_cons,
        mem_insertLe le x a ys]
      tauto

theorem mem_sortLe {α : Type} (le : α → α → Bool) (a : α) :
    ∀ l : List α, a ∈ sortLe le l ↔ a ∈ l
  | [] => by simp [sortLe]
  | y :: ys => by
    simp [sortLe, mem_insertLe, mem_sortLe le a ys]

theorem length_insertLe {α : Type} (le : α → α → Bool) (x : α) :
    ∀ l : List α, (insertLe le x l).length = l.length + 1
  | [] => by simp [insertLe]
  | y :: ys => by
    simp only [insertLe]
    by_cases h : le x y = true
    · simp [h]
    · simp [h, length_insertLe le x ys]

theorem length_sortLe {α : Type} (le : α → α → Bool) :
    ∀ l : List α, (sortLe le l).length = l.length
  | [] => by simp [sortLe]
  | y :: ys => by simp [sortLe, length_insertLe, length_sortLe le ys]

theorem fulfillment_has_status_append (a b : List ShopifyEvent) (st : String) :
    fulfillment_has_status (a ++ b) st =
      (fulfillment_has_status a st || fulfillment_has_status b st) := by
  simp [fulfillment_has_status, List.any_append]

theorem ctt_message_ne_incident (cs : Option String) :
    ctt_message cs ≠ incident_message := by
  intro h
  have h2 := congrArg (fun t => t.data.head?) h
  simp only [ctt_message, incident_message] at h2
  rw [show ("Estado CTT: " ++ cs.getD "None").data =
        'E' :: ("stado CTT: " ++ cs.getD "None").data from rfl] at h2
  simp at h2

/-! ### Claim theorems -/

/-- C3, counterexample: the carrier text "Estado raro" matches no rule of the
classification table, yet classification returns "in_transit" (not None) and
the caller creates an in_transit platform event for the cycle. -/
theorem C3_counterexample :
    map_ctt_to_shopify "Estado raro" = "in_transit" ∧
    (process_one ⟨5, ⟨some "Estado raro", some 3⟩, [], fun _ _ => ⟨201, "", none⟩⟩
        [] 1 1 "T" none false none).created =
      [⟨"in_transit", "Estado CTT: Estado raro", some 3⟩] := by
  constructor
  · decide
  · rfl

/-- C3 (amended): for every carrier status text that matches no key of the
classification table, classification returns the default "in_transit" (and
the caller may therefore emit an in_transit event); only a missing or empty
carrier status yields no classification, and then the cycle emits no platform
event (provided the incident branch is not newly triggered). -/
theorem C3_unmatched_default_amended :
    (∀ st : String,
        st ∉ ["En reparto", "Entrega hoy", "Entregado", "En tránsito", "En transito",
              "Recogido", "Pendiente de recepción en CTT Express", "Reparto fallido"] →
        map_ctt_to_shopify st = "in_transit") ∧
    (∀ (env : Env) (s : Shipment) (oid fid : Nat) (tn : String),
        env.ctt.status = none →
        (s.is_incident = true ∨ should_incident_at env.now s.shipped_at = false) →
        (process_one env [s] oid fid tn s.shipped_at s.is_incident
            s.last_shopify_status).created = []) := by
  constructor
  · intro st hst
    simp only [List.mem_cons, List.not_mem_nil, or_false, not_or] at hst
    obtain ⟨n1, n2, n3, n4, n5, n6, n7, n8⟩ := hst
    simp [map_ctt_to_shopify, n1, n2, n3, n4, n5, n6, n7, n8]
  · intro env s oid fid tn hstat hinc
    unfold process_one
    simp only [hstat, mapped_of]
    by_cases hd : fulfillment_has_status env.shopify_events "delivered" = true
    · simp [hd]
    · simp only [Bool.not_eq_true] at hd
      rcases hinc with hi | hi <;>
        simp [hd, hi]

/-- C3 witness for the amended theorem. -/
theorem C3_unmatched_default_amended_witness :
    map_ctt_to_shopify "Estado desconocido cualquiera" = "in_transit" ∧
    (process_one ⟨0, ⟨none, none⟩, [], fun _ _ => ⟨201, "", none⟩⟩
        [⟨1, 1, some "T", none, false, none, false, none, none, none, none,
          none, none, none⟩] 1 1 "T" none false none).created = [] := by
  constructor
  · exact C3_unmatched_default_amended.1 "Estado desconocido cualquiera" (by decide)
  · exact C3_unmatched_default_amended.2
      ⟨0, ⟨none, none⟩, [], fun _ _ => ⟨201, "", none⟩⟩
      ⟨1, 1, some "T", none, false, none, false, none, none, none, none,
        none, none, none⟩ 1 1 "T" rfl (Or.inr rfl)

/-- C4, counterexample: an empty carrier event history does not skip the
cycle: the resolver returns the sentinel status "Sin eventos", which the
classification table's default maps to "in_transit", and an in_transit
platform event is created for a fresh shipment. -/
theorem C4_counterexample :
    get_ctt_status [.resp 200 none (.payload [])] = (⟨some "Sin eventos", none⟩, []) ∧
    (process_one ⟨7, ⟨some "Sin eventos", none⟩, [], fun _ _ => ⟨201, "", none⟩⟩
        [] 1 1 "T" none false none).created =
      [⟨"in_transit", "Estado CTT: Sin eventos", some 7⟩] := by
  constructor
  · decide
  · rfl

/-- C4 (amended): for every shipment whose carrier event history is empty,
the resolver returns the observation "Sin eventos" with no date; that
sentinel matches no key of the classification table, so it classifies via
the default to "in_transit", and when in_transit is not already recorded for
the shipment an in_transit platform event is created (carrying the sentinel
text and the current time). -/
theorem C4_empty_history_amended :
    (∀ ra : Option ℚ, get_ctt_status [.resp 200 ra (.payload [])] =
        (⟨some "Sin eventos", none⟩, [])) ∧
    map_ctt_to_shopify "Sin eventos" = "in_transit" ∧
    (∀ (env : Env) (s : Shipment) (oid fid : Nat) (tn : String),
        env.ctt = ⟨some "Sin eventos", none⟩ →
        fulfillment_has_status env.shopify_events "delivered" = false →
        fulfillment_has_status env.shopify_events "in_transit" = false →
        s.last_shopify_status ≠ some "in_transit" →
        (env.post "in_transit" (ctt_message (some "Sin eventos"))).status_code = 201 →
        ⟨"in_transit", ctt_message (some "Sin eventos"), some env.now⟩ ∈
          (process_one env [s] oid fid tn s.shipped_at s.is_incident
            s.last_shopify_status).created) := by
  refine ⟨fun ra => rfl, by decide, ?_⟩
  intro env s oid fid tn hctt hdel hit hlast hpost
  have hmap : mapped_of (some "Sin eventos") = some "in_transit" := by decide
  unfold process_one
  simp only [hctt, hmap]
  simp only [show (some "in_transit" = some "delivered") = False by simp, if_false]
  simp only [hdel, Bool.false_eq_true, if_false]
  have hne : (some "in_transit" ≠ s.last_shopify_status) := fun h => hlast h.symm
  simp [hit, hne, create_shopify_event, hpost]

/-- C4 witness for the amended theorem. -/
theorem C4_empty_history_amended_witness :
    get_ctt_status [.resp 200 (some 1) (.payload [])] = (⟨some "Sin eventos", none⟩, []) ∧
    ⟨"in_transit", ctt_message (some "Sin eventos"), some 7⟩ ∈
      (process_one ⟨7, ⟨some "Sin eventos", none⟩, [], fun _ _ => ⟨201, "", none⟩⟩
        [⟨1, 1, some "T", none, false, none, false, none, none, none, none,
          none, none, none⟩] 1 1 "T" none false none).created := by
  constructor
  · exact C4_empty_history_amended.1 (some 1)
  · exact C4_empty_history_amended.2.2
      ⟨7, ⟨some "Sin eventos", none⟩, [], fun _ _ => ⟨201, "", none⟩⟩
      ⟨1, 1, some "T", none, false, none, false, none, none, none, none,
        none, none, none⟩ 1 1 "T" rfl rfl rfl (by decide) rfl

/-- C5, counterexample: with last recorded platform status
"out_for_delivery" (rank 3) and carrier text "En tránsito", the emitter
creates an "in_transit" event (rank 2): a regression in rank, and the created
category is not "delivered". -/
theorem C5_counterexample :
    (process_one ⟨0, ⟨some "En tránsito", none⟩, [⟨"out_for_delivery", "", none⟩],
        fun _ _ => ⟨201, "", none⟩⟩
        [] 1 1 "T" none false (some "out_for_delivery")).created =
      [⟨"in_transit", "Estado CTT: En tránsito", some 0⟩] ∧
    spec_rank "in_transit" < spec_rank "out_for_delivery" ∧
    "in_transit" ≠ "delivered" := by
  refine ⟨rfl, by decide, by decide⟩

/-- C5 (amended): the emitter never creates an event whose status is already
present among the shipment's platform events as fetched at the start of the
cycle — the guards are equality with the last recorded status and presence in
the event list, not a rank comparison, so a lower-ranked category can be
re-created; and the delivered branch does not consult the last recorded
status at all, so delivered may be created from any prior state. -/
theorem C5_no_duplicate_amended :
    (∀ (env : Env) (table : List Shipment) (oid fid : Nat) (tn : String)
        (sa : Option Time) (inc : Bool) (last : Option String) (e : ShopifyEvent),
        e ∈ (process_one env table oid fid tn sa inc last).created →
        fulfillment_has_status env.shopify_events e.status = false) ∧
    (∀ (env : Env) (table : List Shipment) (oid fid : Nat) (tn : String)
        (sa : Option Time) (inc : Bool) (last1 last2 : Option String),
        mapped_of env.ctt.status = some "delivered" →
        (process_one env table oid fid tn sa inc last1).created =
          (process_one env table oid fid tn sa inc last2).created) := by
  constructor
  · intro env table oid fid tn sa inc last e he
    unfold process_one at he
    by_cases hm : mapped_of env.ctt.status = some "delivered"
    · rw [if_pos hm] at he
      by_cases hd : fulfillment_has_status env.shopify_events "delivered" = true
      · simp [hd] at he
      · simp only [Bool.not_eq_true] at hd
        simp only [hd, Bool.false_eq_true, if_false] at he
        by_cases hr : (create_shopify_event
            (env.post "delivered" (ctt_message env.ctt.status))).1 = true
        · simp only [hr, if_true, List.mem_singleton] at he
          subst he
          exact hd
        · simp only [Bool.not_eq_true] at hr
          simp [hr] at he
    · rw [if_neg hm] at he
      by_cases hd : fulfillment_has_status env.shopify_events "delivered" = true
      · simp [hd] at he
      · simp only [Bool.not_eq_true] at hd
        simp only [hd, Bool.false_eq_true, if_false] at he
        rcases List.mem_append.mp he with h6 | h7
        · rcases hmm : mapped_of env.ctt.status with _ | m
          · simp [hmm] at h6
          · simp only [hmm] at h6
            by_cases hne : (some m ≠ last)
            · rw [if_pos hne] at h6
              by_cases hhas : fulfillment_has_status env.shopify_events m = true
              · simp [hhas] at h6
              · simp only [Bool.not_eq_true] at hhas
                simp only [hhas, Bool.false_eq_true, if_false] at h6
                by_cases hr : (create_shopify_event
                    (env.post m (ctt_message env.ctt.status))).1 = true
                · simp only [hr, if_true, List.mem_singleton] at h6
                  subst h6
                  exact hhas
                · simp only [Bool.not_eq_true] at hr
                  simp [hr] at h6
            · rw [if_neg hne] at h6
              simp at h6
        · by_cases hsi : (should_incident_at env.now sa && !inc) = true
          · simp only [hsi, if_true] at h7
            by_cases hhf : fulfillment_has_status env.shopify_events INCIDENT_STATUS = true
            · simp [hhf] at h7
            · simp only [Bool.not_eq_true] at hhf
              simp only [hhf, Bool.false_eq_true, if_false] at h7
              by_cases hr : (create_shopify_event
                  (env.post INCIDENT_STATUS incident_message)).1 = true
              · simp only [hr, if_true, List.mem_singleton] at h7
                subst h7
                exact hhf
              · simp only [Bool.not_eq_true] at hr
                simp [hr] at h7
          · simp only [Bool.not_eq_true] at hsi
            simp [hsi] at h7
  · intro env table oid fid tn sa inc last1 last2 hm
    unfold process_one
    rw [if_pos hm, if_pos hm]
    by_cases hd : fulfillment_has_status env.shopify_events "delivered" = true
    · simp [hd]
    · simp only [Bool.not_eq_true] at hd
      simp only [hd, Bool.false_eq_true, if_false]
      by_cases hr : (create_shopify_event
          (env.post "delivered" (ctt_message env.ctt.status))).1 = true
      · simp [hr]
      · simp only [Bool.not_eq_true] at hr
        simp [hr]

/-- C5 witness for the amended theorem. -/
theorem C5_no_duplicate_amended_witness :
    fulfillment_has_status [] "out_for_delivery" = false ∧
    (process_one ⟨0, ⟨some "Entregado", none⟩, [], fun _ _ => ⟨201, "", none⟩⟩
        [] 1 1 "T" none false none).created =
      (process_one ⟨0, ⟨some "Entregado", none⟩, [], fun _ _ => ⟨201, "", none⟩⟩
        [] 1 1 "T" none false (some "confirmed")).created := by
  constructor
  · exact C5_no_duplicate_amended.1
      ⟨0, ⟨some "En reparto", none⟩, [], fun _ _ => ⟨201, "", none⟩⟩
      [] 1 1 "T" none false none
      ⟨"out_for_delivery", "Estado CTT: En reparto", some 0⟩ (by decide)
  · exact C5_no_duplicate_amended.2
      ⟨0, ⟨some "Entregado", none⟩, [], fun _ _ => ⟨201, "", none⟩⟩
      [] 1 1 "T" none false none (some "confirmed") (by decide)

/-- C6, counterexample: the platform event write has no retry policy at all —
a 429 response, even with a Retry-After header of 2 seconds, makes
`create_shopify_event` return failure immediately; and the carrier fetch does
not honor Retry-After either: after a 429 carrying Retry-After 2 it sleeps
the backoff base 0.7s (at most 0.7 × 1.35 = 0.945s < 2s with maximal jitter)
before the next attempt. -/
theorem C6_counterexample :
    (create_shopify_event ⟨429, "rate limited", some 2⟩).1 = false ∧
    (create_shopify_event ⟨429, "rate limited", some 2⟩).2 ≠ none ∧
    get_ctt_status [.resp 429 (some 2) .blank,
        .resp 200 none (.payload [⟨some "Entregado", some 9⟩])] =
      (⟨some "Entregado", some 9⟩, [7/10]) ∧
    (7/10 : ℚ) * (135/100) < 2 := by
  refine ⟨by decide, by decide, ?_, by norm_num⟩
  show (⟨some "Entregado", some 9⟩, [backoffWait 1]) =
    ((⟨some "Entregado", some 9⟩, [7/10]) : CttObservation × List ℚ)
  norm_num [backoffWait, CTT_BASE_BACKOFF, CTT_MAX_BACKOFF]

/-- C6 (amended): only the carrier fetch is wrapped with retries: a 429
retries with capped exponential backoff (the Retry-After header is ignored —
the wait after a first-attempt 429 is the 0.7s base regardless of the
header), 5xx and network errors retry with the same backoff, any other
non-200 gives up at once returning a no-observation result (the body is only
logged), and exhausting all CTT_MAX_RETRIES attempts also yields the
no-observation result rather than an error.  The platform event write makes
exactly one POST: 201 is the only success, and any other status returns
failure immediately with the status code and response body captured. -/
theorem C6_retry_policy_amended :
    (∀ r : HttpResponse, (create_shopify_event r).1 = true ↔ r.status_code = 201) ∧
    (∀ r : HttpResponse, r.status_code ≠ 201 →
        (create_shopify_event r).2 =
          some (toString r.status_code ++ " - " ++ safe_snippet r.text 220)) ∧
    (∀ (ra : Option ℚ) (b : CttBody) (rest : List CttAttempt),
        get_ctt_status (.resp 429 ra b :: rest) =
          ((get_ctt_status_go 2 rest).1, backoffWait 1 :: (get_ctt_status_go 2 rest).2)) ∧
    (∀ (code : Nat) (ra : Option ℚ) (b : CttBody) (rest : List CttAttempt),
        400 ≤ code → code < 500 → code ≠ 429 →
        get_ctt_status (.resp code ra b :: rest) = (⟨none, none⟩, [])) ∧
    (∀ (code : Nat) (ra : Option ℚ) (b : CttBody) (rest : List CttAttempt),
        500 ≤ code → code < 600 →
        get_ctt_status (.resp code ra b :: rest) =
          ((get_ctt_status_go 2 rest).1, backoffWait 1 :: (get_ctt_status_go 2 rest).2)) ∧
    (∀ (msg : String) (rest : List CttAttempt),
        get_ctt_status (.net msg :: rest) =
          ((get_ctt_status_go 2 rest).1, backoffWait 1 :: (get_ctt_status_go 2 rest).2)) ∧
    (get_ctt_status (List.replicate CTT_MAX_RETRIES (.resp 429 none .blank))).1 =
      ⟨none, none⟩ ∧
    backoffWait 1 = 7/10 := by
  refine ⟨?_, ?_, ?_, ?_, ?_, ?_, by decide, ?_⟩
  · intro r
    unfold create_shopify_event
    by_cases h : r.status_code = 201 <;> simp [h]
  · intro r h
    simp [create_shopify_event, h]
  · intro ra b rest
    simp [get_ctt_status, get_ctt_status_go, CTT_MAX_RETRIES]
  · intro code ra b rest h4 h5 h429
    have h200 : ¬(code = 200) := by omega
    have h5x : ¬(500 ≤ code ∧ code < 600 ∧ 1 < CTT_MAX_RETRIES) := by
      simp [CTT_MAX_RETRIES]; omega
    simp [get_ctt_status, get_ctt_status_go, CTT_MAX_RETRIES, h429, h200, h5x]
    omega
  · intro code ra b rest h5 h6
    have h429 : ¬(code = 429) := by omega
    have h200 : ¬(code = 200) := by omega
    have h5x : 500 ≤ code ∧ code < 600 ∧ 1 < CTT_MAX_RETRIES := by
      refine ⟨h5, h6, by simp [CTT_MAX_RETRIES]⟩
    simp [get_ctt_status, get_ctt_status_go, CTT_MAX_RETRIES, h429, h200, h5x]
  · intro msg rest
    simp [get_ctt_status, get_ctt_status_go, CTT_MAX_RETRIES]
  · norm_num [backoffWait, CTT_BASE_BACKOFF, CTT_MAX_BACKOFF]

/-- C6 witness for the amended theorem. -/
theorem C6_retry_policy_amended_witness :
    ((create_shopify_event ⟨500, "boom", none⟩).1 = true ↔ (500 : Nat) = 201) ∧
    (create_shopify_event ⟨404, "missing", none⟩).2 =
      some (toString (404 : Nat) ++ " - " ++ safe_snippet "missing" 220) ∧
    get_ctt_status [.resp 404 none .blank] = (⟨none, none⟩, []) ∧
    get_ctt_status [.resp 503 none .blank, .resp 200 none (.payload [])] =
      ((get_ctt_status_go 2 [.resp 200 none (.payload [])]).1,
       backoffWait 1 :: (get_ctt_status_go 2 [.resp 200 none (.payload [])]).2) := by
  refine ⟨C6_retry_policy_amended.1 ⟨500, "boom", none⟩, ?_, ?_, ?_⟩
  · exact C6_retry_policy_amended.2.1 ⟨404, "missing", none⟩ (by decide)
  · exact C6_retry_policy_amended.2.2.2.1 404 none .blank [] (by norm_num)
      (by norm_num) (by norm_num)
  · exact C6_retry_policy_amended.2.2.2.2.1 503 none .blank
      [.resp 200 none (.payload [])] (by norm_num) (by norm_num)

/-- C8, counterexample: for an out-of-order feed the resolver returns the
final list element, not the chronologically-last event: with history
`[{B, t=2}, {A, t=1}]` it returns description "A" (timestamp 1), while the
spec's defensive re-sort would select "B" (timestamp 2). -/
theorem C8_counterexample :
    (get_ctt_status [.resp 200 none (.payload
        [⟨some "B", some 2⟩, ⟨some "A", some 1⟩])]).1 = ⟨some "A", some 1⟩ ∧
    (spec_chronological_last [⟨some "B", some 2⟩, ⟨some "A", some 1⟩]).map
        (fun e => e.description) = some (some "B") ∧
    (some "A" : Option String) ≠ some "B" := by
  refine ⟨by decide, by decide, by decide⟩

/-- C8 (amended): for every tracking number whose (well-formed, 200) carrier
response holds a non-empty event history, the resolver returns the
description and timestamp of the final element of the history exactly as
ordered by the feed — no defensive re-sort is performed — substituting
"Estado desconocido" when that element has no description. -/
theorem C8_last_element_amended :
    ∀ (ra : Option ℚ) (evs : List CttEvent) (lastEv : CttEvent),
      evs.getLast? = some lastEv →
      get_ctt_status [.resp 200 ra (.payload evs)] =
        (⟨some (lastEv.description.getD "Estado desconocido"), lastEv.event_date⟩, []) := by
  intro ra evs lastEv hle
  simp [get_ctt_status, get_ctt_status_go, hle, CTT_MAX_RETRIES]

/-- C8 witness for the amended theorem. -/
theorem C8_last_element_amended_witness :
    get_ctt_status [.resp 200 none (.payload [⟨some "X", some 4⟩, ⟨none, some 6⟩])] =
      (⟨some "Estado desconocido", some 6⟩, []) := by
  exact C8_last_element_amended none [⟨some "X", some 4⟩, ⟨none, some 6⟩]
    ⟨none, some 6⟩ (by decide)

/-- C9: the re-discovery upsert creates the row (with all other columns at
their defaults) when the key is absent; when the key is present it updates
the tracking number, never overwrites a non-null shipped_at, and leaves every
other field of the row unchanged; rows with other keys are untouched. -/
theorem C9_upsert_frame :
    ∀ (table : List Shipment) (oid fid : Nat) (tn : String) (sa : Option Time),
      (table.any (sameKey oid fid) = false →
        db_upsert_shipment table oid fid tn sa =
          table ++ [⟨oid, fid, some tn, sa, false, none, false, none, none, none,
                     none, none, none, none⟩]) ∧
      (∀ s0 ∈ table, sameKey oid fid s0 = true →
        ∃ u ∈ db_upsert_shipment table oid fid tn sa,
          sameKey oid fid u = true ∧
          u.tracking_number = some tn ∧
          (∀ v, s0.shipped_at = some v → u.shipped_at = some v) ∧
          u.is_delivered = s0.is_delivered ∧
          u.delivered_at = s0.delivered_at ∧
          u.is_incident = s0.is_incident ∧
          u.incident_marked_at = s0.incident_marked_at ∧
          u.last_ctt_status = s0.last_ctt_status ∧
          u.last_ctt_event_at = s0.last_ctt_event_at ∧
          u.last_shopify_status = s0.last_shopify_status ∧
          u.last_checked_at = s0.last_checked_at ∧
          u.next_check_at = s0.next_check_at ∧
          u.last_error = s0.last_error) ∧
      (∀ u ∈ db_upsert_shipment table oid fid tn sa,
        sameKey oid fid u = false → u ∈ table) := by
  intro table oid fid tn sa
  refine ⟨?_, ?_, ?_⟩
  · intro hno
    simp [db_upsert_shipment, hno]
  · intro s0 hs0 hkey
    have hany : table.any (sameKey oid fid) = true := by
      exact List.any_eq_true.mpr ⟨s0, hs0, hkey⟩
    refine ⟨({ s0 with tracking_number := some tn, shipped_at := if s0.shipped_at.isSome then s0.shipped_at else sa }), ?_, ?_⟩
    · simp only [db_upsert_shipment, hany, if_true]
      refine List.mem_map.mpr ⟨s0, hs0, ?_⟩
      rw [if_pos hkey]
    · refine ⟨?_, rfl, ?_, rfl, rfl, rfl, rfl, rfl, rfl, rfl, rfl, rfl, rfl⟩
      · simpa [sameKey] using hkey
      · intro v hv
        simp [hv]
  · intro u hu hukey
    unfold db_upsert_shipment at hu
    by_cases hany : table.any (sameKey oid fid) = true
    · simp only [hany, if_true] at hu
      obtain ⟨s0, hs0, hmap⟩ := List.mem_map.mp hu
      by_cases hk : sameKey oid fid s0 = true
      · rw [if_pos hk] at hmap
        subst hmap
        simp only [sameKey] at hk hukey
        simp [hk] at hukey
      · rw [if_neg (by simp [hk])] at hmap
        subst hmap
        exact hs0
    · simp only [Bool.not_eq_true] at hany
      simp only [hany, Bool.false_eq_true, if_false, List.mem_append,
        List.mem_singleton] at hu
      rcases hu with hu | hu
      · exact hu
      · subst hu
        simp [sameKey] at hukey

/-- C9 witness. -/
theorem C9_upsert_frame_witness :
    ([(⟨1, 1, some "OLD", some 5, false, none, true, some 9, some "x", some 6,
        some "confirmed", some 7, some 8, some "err"⟩ : Shipment)].any (sameKey 2 2)
      = false →
      db_upsert_shipment [⟨1, 1, some "OLD", some 5, false, none, true, some 9,
        some "x", some 6, some "confirmed", some 7, some 8, some "err"⟩] 2 2 "N" (some 3) =
        [⟨1, 1, some "OLD", some 5, false, none, true, some 9, some "x", some 6,
          some "confirmed", some 7, some 8, some "err"⟩] ++
        [⟨2, 2, some "N", some 3, false, none, false, none, none, none,
          none, none, none, none⟩]) ∧
    (∃ u ∈ db_upsert_shipment [⟨1, 1, some "OLD", some 5, false, none, true, some 9,
        some "x", some 6, some "confirmed", some 7, some 8, some "err"⟩] 1 1 "N" (some 3),
      sameKey 1 1 u = true ∧ u.tracking_number = some "N" ∧ u.shipped_at = some 5) := by
  constructor
  · exact (C9_upsert_frame [⟨1, 1, some "OLD", some 5, false, none, true, some 9,
      some "x", some 6, some "confirmed", some 7, some 8, some "err"⟩] 2 2 "N" (some 3)).1
  · obtain ⟨u, hu, hk, htn, hsv, -⟩ :=
      (C9_upsert_frame [⟨1, 1, some "OLD", some 5, false, none, true, some 9,
        some "x", some 6, some "confirmed", some 7, some 8, some "err"⟩] 1 1 "N" (some 3)).2.1
        ⟨1, 1, some "OLD", some 5, false, none, true, some 9, some "x", some 6,
          some "confirmed", some 7, some 8, some "err"⟩ (by decide) (by decide)
    exact ⟨u, hu, hk, htn, hsv 5 rfl⟩

/-- C1: delivered is absorbing.  (a) The pending-selection query only returns
rows with is_delivered = false, so a ledger-delivered shipment is never
processed again; (b) whenever a delivered event already exists among the
shipment's platform events, the cycle creates no platform event — regardless
of the carrier text — and leaves the row with is_delivered set and
next_check_at cleared; (c) mark_delivered itself sets is_delivered and clears
next_check_at, making the state absorbing. -/
theorem C1_delivered_absorbing :
    (∀ (table : List Shipment) (now : Time) (limit : Nat) (u : Shipment),
        u ∈ db_get_pending table now limit → u.is_delivered = false) ∧
    (∀ (env : Env) (s : Shipment) (oid fid : Nat) (tn : String)
        (sa : Option Time) (inc : Bool) (last : Option String),
        s.order_id = oid → s.fulfillment_id = fid →
        fulfillment_has_status env.shopify_events "delivered" = true →
        (process_one env [s] oid fid tn sa inc last).created = [] ∧
        ∀ u ∈ (process_one env [s] oid fid tn sa inc last).table,
          u.is_delivered = true ∧ u.next_check_at = none) ∧
    (∀ (table : List Shipment) (oid fid : Nat) (d : Option Time) (u : Shipment),
        u ∈ db_mark_delivered table oid fid d → sameKey oid fid u = true →
        u.is_delivered = true ∧ u.next_check_at = none) := by
  refine ⟨?_, ?_, ?_⟩
  · intro table now limit u hu
    have h1 : u ∈ sortLe (fun a b => decide (checkedKey a ≤ checkedKey b))
        (table.filter (pendingPred now)) := List.take_subset _ _ hu
    have h2 : u ∈ table.filter (pendingPred now) := (mem_sortLe _ u _).mp h1
    have h3 := (List.mem_filter.mp h2).2
    simp only [pendingPred, Bool.and_eq_true, Bool.not_eq_true'] at h3
    exact h3.1
  · intro env s oid fid tn sa inc last hoid hfid hdel
    constructor
    · unfold process_one
      by_cases hm : mapped_of env.ctt.status = some "delivered" <;>
        simp [hm, hdel]
    · intro u hu
      unfold process_one at hu
      by_cases hm : mapped_of env.ctt.status = some "delivered"
      · rw [if_pos hm] at hu
        simp only [hdel, if_true] at hu
        simp only [db_update_check, db_mark_delivered, sameKey, hoid, hfid,
          beq_self_eq_true, Bool.and_self, if_true, List.map_cons, List.map_nil,
          List.mem_singleton] at hu
        subst hu
        exact ⟨rfl, rfl⟩
      · rw [if_neg hm] at hu
        simp only [hdel, if_true] at hu
        simp only [db_update_check, db_mark_delivered, sameKey, hoid, hfid,
          beq_self_eq_true, Bool.and_self, if_true, List.map_cons, List.map_nil,
          List.mem_singleton] at hu
        subst hu
        exact ⟨rfl, rfl⟩
  · intro table oid fid d u hu hk
    unfold db_mark_delivered at hu
    obtain ⟨s0, hs0, hmap⟩ := List.mem_map.mp hu
    by_cases h0 : sameKey oid fid s0 = true
    · rw [if_pos h0] at hmap
      subst hmap
      exact ⟨rfl, rfl⟩
    · rw [if_neg (by simp [h0])] at hmap
      subst hmap
      exact absurd hk h0

/-- C1 witness: a delivered row is not selected by the pending query, and a
cycle for a shipment whose Shopify history already holds a delivered event
creates nothing and closes the row. -/
theorem C1_delivered_absorbing_witness :
    (⟨1, 1, some "T", none, false, none, false, none, none, none, none, none,
       none, none⟩ : Shipment).is_delivered = false ∧
    (process_one ⟨0, ⟨some "En reparto", none⟩, [⟨"delivered", "", none⟩],
        fun _ _ => ⟨201, "", none⟩⟩
      [⟨1, 1, some "T", none, false, none, false, none, none, none, none, none,
         none, none⟩] 1 1 "T" none false none).created = [] ∧
    ∀ u ∈ (process_one ⟨0, ⟨some "En reparto", none⟩, [⟨"delivered", "", none⟩],
        fun _ _ => ⟨201, "", none⟩⟩
      [⟨1, 1, some "T", none, false, none, false, none, none, none, none, none,
         none, none⟩] 1 1 "T" none false none).table,
      u.is_delivered = true ∧ u.next_check_at = none := by
  refine ⟨?_, ?_⟩
  · exact C1_delivered_absorbing.1
      [⟨2, 2, some "U", none, true, none, false, none, none, none, none, none,
         none, none⟩,
       ⟨1, 1, some "T", none, false, none, false, none, none, none, none, none,
         none, none⟩] 0 10
      ⟨1, 1, some "T", none, false, none, false, none, none, none, none, none,
        none, none⟩ (by decide)
  · exact C1_delivered_absorbing.2.1
      ⟨0, ⟨some "En reparto", none⟩, [⟨"delivered", "", none⟩],
        fun _ _ => ⟨201, "", none⟩⟩
      ⟨1, 1, some "T", none, false, none, false, none, none, none, none, none,
        none, none⟩ 1 1 "T" none false none rfl rfl (by decide)

/-- C7: for a non-delivered cycle (the carrier does not map to delivered and
no delivered event exists) of a shipment whose shipped_at is at least
INCIDENT_AFTER_DAYS days old, with all POSTs succeeding: when the incident
flag is not yet set, exactly one incident event (status INCIDENT_STATUS =
"failure", the incident message, stamped now) is created — skipped entirely
when such an event already exists in Shopify; when the flag is already set no
incident event is created and the first mark timestamp is preserved; in all
cases the row ends with is_incident set and the next check scheduled
INCIDENT_RECHECK_HOURS later instead of the normal cadence. -/
theorem C7_incident_once :
    ∀ (env : Env) (s : Shipment) (oid fid : Nat) (tn : String),
      s.order_id = oid → s.fulfillment_id = fid →
      mapped_of env.ctt.status ≠ some "delivered" →
      fulfillment_has_status env.shopify_events "delivered" = false →
      should_incident_at env.now s.shipped_at = true →
      (∀ st m, (env.post st m).status_code = 201) →
      (s.is_incident = false →
        ((process_one env [s] oid fid tn s.shipped_at s.is_incident
            s.last_shopify_status).created.filter
              (fun e => e.message == incident_message)) =
          (if fulfillment_has_status env.shopify_events INCIDENT_STATUS then []
           else [⟨INCIDENT_STATUS, incident_message, some env.now⟩])) ∧
      (s.is_incident = true →
        ((process_one env [s] oid fid tn s.shipped_at s.is_incident
            s.last_shopify_status).created.filter
              (fun e => e.message == incident_message)) = []) ∧
      (∀ u ∈ (process_one env [s] oid fid tn s.shipped_at s.is_incident
          s.last_shopify_status).table,
        u.is_incident = true ∧
        u.next_check_at = some (env.now + (INCIDENT_RECHECK_HOURS : Int) * 3600) ∧
        (s.is_incident = true → u.incident_marked_at = s.incident_marked_at)) := by
  intro env s oid fid tn hoid hfid hm hdel hsi hpost
  have hcm : ∀ cs : Option String, (ctt_message cs == incident_message) = false :=
    fun cs => beq_eq_false_iff_ne.mpr (ctt_message_ne_incident cs)
  unfold process_one
  rw [if_neg hm]
  simp only [hdel, Bool.false_eq_true, if_false]
  simp only [create_shopify_event, hpost, if_true]
  refine ⟨?_, ?_, ?_⟩
  · intro hinc
    by_cases hf : fulfillment_has_status env.shopify_events INCIDENT_STATUS = true
    · rcases hmm : mapped_of env.ctt.status with _ | m
      · simp [hmm, hinc, hsi, hf, hcm, List.filter_append]
      · by_cases hne : (some m ≠ s.last_shopify_status)
        · by_cases hhas : fulfillment_has_status env.shopify_events m = true
          · simp [hmm, hne, hhas, hinc, hsi, hf, hcm, List.filter_append]
          · simp [hmm, hne, hhas, hinc, hsi, hf, hcm, List.filter_append]
        · simp [hmm, hne, hinc, hsi, hf, hcm, List.filter_append]
    · simp only [Bool.not_eq_true] at hf
      rcases hmm : mapped_of env.ctt.status with _ | m
      · simp [hmm, hinc, hsi, hf, hcm, List.filter_append]
      · by_cases hne : (some m ≠ s.last_shopify_status)
        · by_cases hhas : fulfillment_has_status env.shopify_events m = true
          · simp [hmm, hne, hhas, hinc, hsi, hf, hcm, List.filter_append]
          · simp [hmm, hne, hhas, hinc, hsi, hf, hcm, List.filter_append]
        · simp [hmm, hne, hinc, hsi, hf, hcm, List.filter_append]
  · intro hinc
    rcases hmm : mapped_of env.ctt.status with _ | m
    · simp [hmm, hinc, hsi, hcm, List.filter_append]
    · by_cases hne : (some m ≠ s.last_shopify_status)
      · by_cases hhas : fulfillment_has_status env.shopify_events m = true
        · simp [hmm, hne, hhas, hinc, hsi, hcm, List.filter_append]
        · simp [hmm, hne, hhas, hinc, hsi, hcm, List.filter_append]
      · simp [hmm, hne, hinc, hsi, hcm, List.filter_append]
  · intro u hu
    by_cases hinc : s.is_incident = true
    · simp only [hinc, hsi, Bool.not_true, Bool.and_false, Bool.false_eq_true,
        if_false, Bool.or_true, if_true] at hu
      simp only [db_update_check, sameKey, hoid, hfid, beq_self_eq_true,
        Bool.and_self, if_true, List.map_cons, List.map_nil,
        List.mem_singleton] at hu
      subst hu
      exact ⟨hinc, rfl, fun _ => rfl⟩
    · simp only [Bool.not_eq_true] at hinc
      simp only [hinc, hsi, Bool.not_false, Bool.and_true, if_true,
        Bool.or_false] at hu
      by_cases hf : fulfillment_has_status env.shopify_events INCIDENT_STATUS = true
      · simp only [hf, if_true] at hu
        simp only [db_update_check, db_set_incident, sameKey, hoid, hfid,
          beq_self_eq_true, Bool.and_self, if_true, List.map_cons, List.map_nil,
          List.mem_singleton] at hu
        subst hu
        refine ⟨rfl, rfl, fun h => ?_⟩
        rw [hinc] at h
        exact absurd h (by simp)
      · simp only [Bool.not_eq_true] at hf
        simp only [hf, Bool.false_eq_true, if_false] at hu
        simp only [db_update_check, db_set_incident, sameKey, hoid, hfid,
          beq_self_eq_true, Bool.and_self, if_true, List.map_cons, List.map_nil,
          List.mem_singleton] at hu
        subst hu
        refine ⟨rfl, rfl, fun h => ?_⟩
        rw [hinc] at h
        exact absurd h (by simp)

/-- C7 witness: concrete first-time incident cycle — the incident event is
created once, the flag is set, and the recheck moves to the 24h cadence. -/
theorem C7_incident_once_witness :
    ((process_one ⟨400000, ⟨some "En tránsito", none⟩, [],
        fun _ _ => ⟨201, "", none⟩⟩
      [⟨1, 1, some "T", some 0, false, none, false, none, none, none, none,
         none, none, none⟩] 1 1 "T" (some 0) false none).created.filter
        (fun e => e.message == incident_message)) =
      [⟨INCIDENT_STATUS, incident_message, some 400000⟩] ∧
    ∀ u ∈ (process_one ⟨400000, ⟨some "En tránsito", none⟩, [],
        fun _ _ => ⟨201, "", none⟩⟩
      [⟨1, 1, some "T", some 0, false, none, false, none, none, none, none,
         none, none, none⟩] 1 1 "T" (some 0) false none).table,
      u.is_incident = true ∧
      u.next_check_at = some ((400000 : Int) + (INCIDENT_RECHECK_HOURS : Int) * 3600) := by
  have h := C7_incident_once
    ⟨400000, ⟨some "En tránsito", none⟩, [], fun _ _ => ⟨201, "", none⟩⟩
    ⟨1, 1, some "T", some 0, false, none, false, none, none, none, none,
      none, none, none⟩ 1 1 "T" rfl rfl (by decide) (by decide) (by decide)
    (fun _ _ => rfl)
  refine ⟨?_, fun u hu => ?_⟩
  · have h1 := h.1 rfl
    simpa using h1
  · obtain ⟨ha, hb, -⟩ := h.2.2 u hu
    exact ⟨ha, hb⟩

/-- C2, counterexample: two cycles with the identical carrier observation
("En tránsito", already the last recorded status, so the first cycle writes
nothing) where the shipment crosses the INCIDENT_AFTER_DAYS threshold
between the runs: the second cycle creates one (incident) platform event,
so running reconciliation twice with an unchanged observation is not
event-free the second time. -/
theorem C2_counterexample :
    (process_one ⟨345599, ⟨some "En tránsito", none⟩, [⟨"in_transit", "", none⟩],
        fun _ _ => ⟨201, "", none⟩⟩
      [⟨1, 1, some "T", some 0, false, none, false, none, none, none,
         some "in_transit", none, none, none⟩]
      1 1 "T" (some 0) false (some "in_transit")).created = [] ∧
    (process_one ⟨345600, ⟨some "En tránsito", none⟩, [⟨"in_transit", "", none⟩],
        fun _ _ => ⟨201, "", none⟩⟩
      ((process_one ⟨345599, ⟨some "En tránsito", none⟩, [⟨"in_transit", "", none⟩],
          fun _ _ => ⟨201, "", none⟩⟩
        [⟨1, 1, some "T", some 0, false, none, false, none, none, none,
           some "in_transit", none, none, none⟩]
        1 1 "T" (some 0) false (some "in_transit")).table)
      1 1 "T" (some 0) false (some "in_transit")).created.length = 1 := by
  exact ⟨rfl, rfl⟩

/-- When a delivered event already exists in the fetched Shopify history, a
cycle creates no platform event, whatever the carrier observation. -/
theorem created_nil_of_delivered (env : Env) (table : List Shipment) (oid fid : Nat)
    (tn : String) (sa : Option Time) (inc : Bool) (last : Option String)
    (hdel : fulfillment_has_status env.shopify_events "delivered" = true) :
    (process_one env table oid fid tn sa inc last).created = [] := by
  unfold process_one
  by_cases hm : mapped_of env.ctt.status = some "delivered" <;> simp [hm, hdel]

/-- When the carrier maps to delivered, no delivered event exists yet and the
POST succeeds, the cycle creates exactly the delivered event. -/
theorem created_delivered (env : Env) (table : List Shipment) (oid fid : Nat)
    (tn : String) (sa : Option Time) (inc : Bool) (last : Option String)
    (hm : mapped_of env.ctt.status = some "delivered")
    (hdel : fulfillment_has_status env.shopify_events "delivered" = false)
    (hpost : ∀ st m, (env.post st m).status_code = 201) :
    (process_one env table oid fid tn sa inc last).created =
      [⟨"delivered", ctt_message env.ctt.status,
        some ((env.ctt.date).getD env.now)⟩] := by
  unfold process_one
  rw [if_pos hm]
  simp [hdel, create_shopify_event, hpost]

/-- A cycle with no classification (carrier status missing or empty) creates
no platform event, provided the incident branch is quiet. -/
theorem created_nil_of_none (env : Env) (table : List Shipment) (oid fid : Nat)
    (tn : String) (sa : Option Time) (inc : Bool) (last : Option String)
    (hmm : mapped_of env.ctt.status = none)
    (hq : inc = true ∨ should_incident_at env.now sa = false) :
    (process_one env table oid fid tn sa inc last).created = [] := by
  unfold process_one
  rw [if_neg (by simp [hmm])]
  by_cases hdel : fulfillment_has_status env.shopify_events "delivered" = true
  · simp [hdel]
  · simp only [Bool.not_eq_true] at hdel
    rcases hq with h | h <;> simp [hdel, hmm, h]

/-- A cycle whose classified status equals the last recorded status creates
no platform event, provided the incident branch is quiet. -/
theorem created_nil_of_same (env : Env) (table : List Shipment) (oid fid : Nat)
    (tn : String) (sa : Option Time) (inc : Bool) (last : Option String) (m : String)
    (hmm : mapped_of env.ctt.status = some m) (hmne : m ≠ "delivered")
    (hlast : some m = last)
    (hq : inc = true ∨ should_incident_at env.now sa = false) :
    (process_one env table oid fid tn sa inc last).created = [] := by
  unfold process_one
  rw [if_neg (by simp [hmm, hmne])]
  by_cases hdel : fulfillment_has_status env.shopify_events "delivered" = true
  · simp [hdel]
  · simp only [Bool.not_eq_true] at hdel
    have hnn : ¬(some m ≠ last) := fun hc => hc hlast
    rcases hq with h | h <;> simp [hdel, hmm, hnn, h]

/-- Row facts after a non-delivered cycle on a one-row ledger with all POSTs
succeeding: shipped_at is untouched, the incident flag is monotone (set
whenever it was set or the incident condition held), and the last recorded
platform status becomes the classified status when there is one. -/
theorem process_one_row_facts (env : Env) (s : Shipment) (oid fid : Nat) (tn : String)
    (hoid : s.order_id = oid) (hfid : s.fulfillment_id = fid)
    (hm : mapped_of env.ctt.status ≠ some "delivered")
    (hdel : fulfillment_has_status env.shopify_events "delivered" = false)
    (hpost : ∀ st m, (env.post st m).status_code = 201) :
    ∀ u ∈ (process_one env [s] oid fid tn s.shipped_at s.is_incident
        s.last_shopify_status).table,
      u.shipped_at = s.shipped_at ∧
      ((s.is_incident = true ∨
          should_incident_at env.now s.shipped_at = true) → u.is_incident = true) ∧
      (∀ m, mapped_of env.ctt.status = some m → u.last_shopify_status = some m) := by
  intro u hu
  unfold process_one at hu
  rw [if_neg hm] at hu
  simp only [hdel, Bool.false_eq_true, if_false] at hu
  simp only [create_shopify_event, hpost, if_true] at hu
  by_cases hg : (should_incident_at env.now s.shipped_at && !s.is_incident) = true
  · have hgs := (Bool.and_eq_true _ _).mp hg
    by_cases hf : fulfillment_has_status env.shopify_events INCIDENT_STATUS = true
    · simp only [hg, if_true, hf] at hu
      rcases hmm : mapped_of env.ctt.status with _ | m
      · simp only [hmm] at hu
        simp only [db_update_check, db_set_incident, sameKey, hoid, hfid,
          beq_self_eq_true, Bool.and_self, if_true, List.map_cons, List.map_nil,
          List.mem_singleton] at hu
        subst hu
        exact ⟨rfl, fun _ => rfl, fun m hmc => by simp at hmc⟩
      · simp only [hmm] at hu
        by_cases hne : (some m ≠ s.last_shopify_status)
        · rw [if_pos hne] at hu
          by_cases hhas : fulfillment_has_status env.shopify_events m = true <;>
            · simp only [hhas, if_true, Bool.false_eq_true, if_false] at hu
              simp only [db_update_check, db_set_incident, sameKey, hoid, hfid,
                beq_self_eq_true, Bool.and_self, if_true, List.map_cons,
                List.map_nil, List.mem_singleton] at hu
              subst hu
              refine ⟨rfl, fun _ => rfl, fun m2 hmc => ?_⟩
              injection hmc with h3
              rw [← h3]
        · rw [if_neg hne] at hu
          simp only [db_update_check, db_set_incident, sameKey, hoid, hfid,
            beq_self_eq_true, Bool.and_self, if_true, List.map_cons,
            List.map_nil, List.mem_singleton] at hu
          subst hu
          refine ⟨rfl, fun _ => rfl, fun m2 hmc => ?_⟩
          injection hmc with h3
          simp only [Ne, not_not] at hne
          rw [← h3, ← hne]
    · simp only [Bool.not_eq_true] at hf
      simp only [hg, if_true, hf, Bool.false_eq_true, if_false] at hu
      rcases hmm : mapped_of env.ctt.status with _ | m
      · simp only [hmm] at hu
        simp only [db_update_check, db_set_incident, sameKey, hoid, hfid,
          beq_self_eq_true, Bool.and_self, if_true, List.map_cons, List.map_nil,
          List.mem_singleton] at hu
        subst hu
        exact ⟨rfl, fun _ => rfl, fun m hmc => by simp at hmc⟩
      · simp only [hmm] at hu
        by_cases hne : (some m ≠ s.last_shopify_status)
        · rw [if_pos hne] at hu
          by_cases hhas : fulfillment_has_status env.shopify_events m = true <;>
            · simp only [hhas, if_true, Bool.false_eq_true, if_false] at hu
              simp only [db_update_check, db_set_incident, sameKey, hoid, hfid,
                beq_self_eq_true, Bool.and_self, if_true, List.map_cons,
                List.map_nil, List.mem_singleton] at hu
              subst hu
              refine ⟨rfl, fun _ => rfl, fun m2 hmc => ?_⟩
              injection hmc with h3
              rw [← h3]
        · rw [if_neg hne] at hu
          simp only [db_update_check, db_set_incident, sameKey, hoid, hfid,
            beq_self_eq_true, Bool.and_self, if_true, List.map_cons,
            List.map_nil, List.mem_singleton] at hu
          subst hu
          refine ⟨rfl, fun _ => rfl, fun m2 hmc => ?_⟩
          injection hmc with h3
          simp only [Ne, not_not] at hne
          rw [← h3, ← hne]
  · simp only [Bool.not_eq_true] at hg
    have hgor : s.is_incident = true ∨
        should_incident_at env.now s.shipped_at = false := by
      rcases Bool.and_eq_false_iff.mp hg with h | h
      · exact Or.inr h
      · exact Or.inl (by simpa using h)
    simp only [hg, Bool.false_eq_true, if_false] at hu
    rcases hmm : mapped_of env.ctt.status with _ | m
    · simp only [hmm] at hu
      simp only [db_update_check, sameKey, hoid, hfid, beq_self_eq_true,
        Bool.and_self, if_true, List.map_cons, List.map_nil,
        List.mem_singleton] at hu
      subst hu
      refine ⟨rfl, ?_, fun m hmc => by simp at hmc⟩
      intro hor
      rcases hor with h | h
      · exact h
      · rcases hgor with h2 | h2
        · exact h2
        · rw [h] at h2; cases h2
    · simp only [hmm] at hu
      by_cases hne : (some m ≠ s.last_shopify_status)
      · rw [if_pos hne] at hu
        by_cases hhas : fulfillment_has_status env.shopify_events m = true <;>
          · simp only [hhas, if_true, Bool.false_eq_true, if_false] at hu
            simp only [db_update_check, sameKey, hoid, hfid, beq_self_eq_true,
              Bool.and_self, if_true, List.map_cons, List.map_nil,
              List.mem_singleton] at hu
            subst hu
            refine ⟨rfl, ?_, fun m2 hmc => ?_⟩
            · intro hor
              rcases hor with h | h
              · exact h
              · rcases hgor with h2 | h2
                · exact h2
                · rw [h] at h2; cases h2
            · injection hmc with h3
              rw [← h3]
      · rw [if_neg hne] at hu
        simp only [db_update_check, sameKey, hoid, hfid, beq_self_eq_true,
          Bool.and_self, if_true, List.map_cons, List.map_nil,
          List.mem_singleton] at hu
        subst hu
        refine ⟨rfl, ?_, fun m2 hmc => ?_⟩
        · intro hor
          rcases hor with h | h
          · exact h
          · rcases hgor with h2 | h2
            · exact h2
            · rw [h] at h2; cases h2
        · injection hmc with h3
          simp only [Ne, not_not] at hne
          rw [← h3, ← hne]

/-- C2 (amended): running the cycle twice with an unchanged carrier
observation creates zero platform events the second time, provided the first
cycle's POSTs succeeded and the shipment does not newly cross the incident
age threshold between the runs (if the incident condition holds at the second
run, it already held at the first or the flag was already set) — without
that proviso the second run can still create the one-time incident event
(see the counterexample).  The second cycle receives the ledger row written
by the first and the Shopify history extended by the first cycle's events. -/
theorem C2_idempotent_amended :
    ∀ (s s1 : Shipment) (o : CttObservation) (events : List ShopifyEvent)
      (post1 post2 : String → String → HttpResponse) (now1 now2 : Time)
      (oid fid : Nat) (tn : String),
      s.order_id = oid → s.fulfillment_id = fid →
      (∀ st m, (post1 st m).status_code = 201) →
      (process_one ⟨now1, o, events, post1⟩ [s] oid fid tn s.shipped_at
          s.is_incident s.last_shopify_status).table = [s1] →
      (should_incident_at now2 s.shipped_at = true →
        should_incident_at now1 s.shipped_at = true ∨ s.is_incident = true) →
      (process_one ⟨now2, o,
          events ++ (process_one ⟨now1, o, events, post1⟩ [s] oid fid tn
            s.shipped_at s.is_incident s.last_shopify_status).created, post2⟩
        [s1] oid fid tn s1.shipped_at s1.is_incident
        s1.last_shopify_status).created = [] := by
  intro s s1 o events post1 post2 now1 now2 oid fid tn hoid hfid hpost1 htab hcross
  by_cases hdel1 : fulfillment_has_status events "delivered" = true
  · apply created_nil_of_delivered
    show fulfillment_has_status (events ++ _) "delivered" = true
    rw [fulfillment_has_status_append, hdel1]
    rfl
  · simp only [Bool.not_eq_true] at hdel1
    by_cases hmda : mapped_of o.status = some "delivered"
    · have hc1 := created_delivered ⟨now1, o, events, post1⟩ [s] oid fid tn
        s.shipped_at s.is_incident s.last_shopify_status hmda hdel1 hpost1
      apply created_nil_of_delivered
      show fulfillment_has_status (events ++ _) "delivered" = true
      rw [fulfillment_has_status_append, hc1]
      simp [fulfillment_has_status]
    · have hmem : s1 ∈ (process_one ⟨now1, o, events, post1⟩ [s] oid fid tn
          s.shipped_at s.is_incident s.last_shopify_status).table := by
        rw [htab]
        exact List.mem_singleton.mpr rfl
      obtain ⟨hship, hincmono, hlastf⟩ := process_one_row_facts
        ⟨now1, o, events, post1⟩ s oid fid tn hoid hfid hmda hdel1 hpost1 s1 hmem
      have hq : s1.is_incident = true ∨
          should_incident_at now2 s1.shipped_at = false := by
        by_cases hsi2 : should_incident_at now2 s1.shipped_at = true
        · left
          apply hincmono
          rw [hship] at hsi2
          rcases hcross hsi2 with h | h
          · exact Or.inr h
          · exact Or.inl h
        · right
          simpa using hsi2
      rcases hmm : mapped_of o.status with _ | m
      · exact created_nil_of_none _ _ _ _ _ _ _ _ hmm hq
      · have hmne : m ≠ "delivered" := by
          rintro rfl
          exact hmda hmm
        exact created_nil_of_same _ _ _ _ _ _ _ _ m hmm hmne
          (hlastf m hmm).symm hq

/-- C2 witness for the amended theorem: same shipment, same observation, both
cycles well before the incident threshold — the second cycle writes nothing. -/
theorem C2_idempotent_amended_witness :
    (process_one ⟨0, ⟨some "En tránsito", none⟩,
        [] ++ (process_one ⟨0, ⟨some "En tránsito", none⟩, [],
          fun _ _ => ⟨201, "", none⟩⟩
          [⟨1, 1, some "T", some 0, false, none, false, none, none, none,
             some "in_transit", none, none, none⟩]
          1 1 "T" (some 0) false (some "in_transit")).created,
        fun _ _ => ⟨201, "", none⟩⟩
      [⟨1, 1, some "T", some 0, false, none, false, none, some "En tránsito",
         some 0, some "in_transit", some 0, none, none⟩]
      1 1 "T" (some 0) false (some "in_transit")).created = [] := by
  exact C2_idempotent_amended
    ⟨1, 1, some "T", some 0, false, none, false, none, none, none,
      some "in_transit", none, none, none⟩
    ⟨1, 1, some "T", some 0, false, none, false, none, some "En tránsito",
      some 0, some "in_transit", some 0, none, none⟩
    ⟨some "En tránsito", none⟩ [] (fun _ _ => ⟨201, "", none⟩)
    (fun _ _ => ⟨201, "", none⟩) 0 0 1 1 "T" rfl rfl (fun _ _ => rfl)
    (by decide) (by decide)

/-- C10: per-shipment exceptions do not abort the batch.  (1) An exception
from processing one shipment is caught: the loop records it via the handler
and continues with the remaining pending rows; (2) the handler writes the
message into the row's last_error, schedules a retry 30 minutes out and
leaves is_delivered as it was; (3) such a still-undelivered row with a due
next_check_at is selected again by the pending query of a later run (batch
limit permitting); (4) a later fully-successful cycle writes last_error back
to None; (5) a failure of the handler's own ledger write aborts the entire
run with that error; (6) a batch none of whose rows hits a ledger failure
always completes. -/
theorem C10_error_isolation :
    (∀ (now : Time) (oracle : Nat → Nat → StepOutcome) (table : List Shipment)
        (row : Shipment) (rest : List Shipment) (tn : String) (msg : String),
        row.tracking_number = some tn → tn ≠ "" →
        oracle row.order_id row.fulfillment_id = .exn msg →
        run_batch now oracle table (row :: rest) =
          run_batch now oracle
            (handle_exn table row.order_id row.fulfillment_id now
              row.last_shopify_status msg) rest) ∧
    (∀ (table : List Shipment) (oid fid : Nat) (now : Time)
        (ls : Option String) (msg : String) (u : Shipment),
        u ∈ handle_exn table oid fid now ls msg → sameKey oid fid u = true →
        u.last_error = some msg ∧ u.next_check_at = some (now + 30 * 60) ∧
        ∃ s0 ∈ table, sameKey oid fid s0 = true ∧
          u.is_delivered = s0.is_delivered) ∧
    (∀ (s : Shipment) (table : List Shipment) (t0 nowq : Time) (limit : Nat),
        s ∈ table → s.is_delivered = false → s.next_check_at = some t0 →
        t0 ≤ nowq → table.length ≤ limit →
        s ∈ db_get_pending table nowq limit) ∧
    (∀ (env : Env) (s : Shipment) (oid fid : Nat) (tn : String),
        s.order_id = oid → s.fulfillment_id = fid →
        (∀ st m, (env.post st m).status_code = 201) →
        ∀ u ∈ (process_one env [s] oid fid tn s.shipped_at s.is_incident
            s.last_shopify_status).table, u.last_error = none) ∧
    (∀ (now : Time) (oracle : Nat → Nat → StepOutcome) (table : List Shipment)
        (row : Shipment) (rest : List Shipment) (tn : String) (msg : String),
        row.tracking_number = some tn → tn ≠ "" →
        oracle row.order_id row.fulfillment_id = .ledgerDown msg →
        run_batch now oracle table (row :: rest) = .error msg) ∧
    (∀ (now : Time) (oracle : Nat → Nat → StepOutcome) (pending : List Shipment),
        ∀ (table : List Shipment),
        (∀ row ∈ pending, ∀ m, oracle row.order_id row.fulfillment_id ≠ .ledgerDown m) →
        ∃ p, run_batch now oracle table pending = .ok p) := by
  refine ⟨?_, ?_, ?_, ?_, ?_, ?_⟩
  · intro now oracle table row rest tn msg htn htne horacle
    simp only [run_batch, htn, horacle, if_neg htne]
  · intro table oid fid now ls msg u hu hukey
    unfold handle_exn db_update_check at hu
    obtain ⟨s0, hs0, hmap⟩ := List.mem_map.mp hu
    by_cases hk : sameKey oid fid s0 = true
    · rw [if_pos hk] at hmap
      subst hmap
      exact ⟨rfl, rfl, s0, hs0, hk, rfl⟩
    · rw [if_neg (by simp [hk])] at hmap
      subst hmap
      exact absurd hukey hk
  · intro s table t0 nowq limit hs hdeliv hnext hle hlen
    have hpred : pendingPred nowq s = true := by
      simp [pendingPred, hdeliv, hnext, hle]
    have hfil : s ∈ table.filter (pendingPred nowq) :=
      List.mem_filter.mpr ⟨hs, hpred⟩
    have hsort : s ∈ sortLe (fun a b => decide (checkedKey a ≤ checkedKey b))
        (table.filter (pendingPred nowq)) := (mem_sortLe _ s _).mpr hfil
    have hlen2 : (sortLe (fun a b => decide (checkedKey a ≤ checkedKey b))
        (table.filter (pendingPred nowq))).length ≤ limit := by
      rw [length_sortLe]
      exact le_trans (List.length_filter_le _ _) hlen
    unfold db_get_pending
    rw [List.take_of_length_le hlen2]
    exact hsort
  · intro env s oid fid tn hoid hfid hpost u hu
    unfold process_one at hu
    by_cases hm : mapped_of env.ctt.status = some "delivered"
    · rw [if_pos hm] at hu
      by_cases hdel : fulfillment_has_status env.shopify_events "delivered" = true
      · simp only [hdel, if_true] at hu
        simp only [db_update_check, db_mark_delivered, sameKey, hoid, hfid,
          beq_self_eq_true, Bool.and_self, if_true, List.map_cons, List.map_nil,
          List.mem_singleton] at hu
        subst hu
        rfl
      · simp only [Bool.not_eq_true] at hdel
        simp only [hdel, Bool.false_eq_true, if_false, create_shopify_event,
          hpost, if_true] at hu
        simp only [db_update_check, db_mark_delivered, sameKey, hoid, hfid,
          beq_self_eq_true, Bool.and_self, if_true, List.map_cons, List.map_nil,
          List.mem_singleton] at hu
        subst hu
        rfl
    · rw [if_neg hm] at hu
      by_cases hdel : fulfillment_has_status env.shopify_events "delivered" = true
      · simp only [hdel, if_true] at hu
        simp only [db_update_check, db_mark_delivered, sameKey, hoid, hfid,
          beq_self_eq_true, Bool.and_self, if_true, List.map_cons, List.map_nil,
          List.mem_singleton] at hu
        subst hu
        rfl
      · simp only [Bool.not_eq_true] at hdel
        simp only [hdel, Bool.false_eq_true, if_false, create_shopify_event,
          hpost, if_true] at hu
        by_cases hg : (should_incident_at env.now s.shipped_at && !s.is_incident) = true
        · by_cases hf : fulfillment_has_status env.shopify_events INCIDENT_STATUS = true
          · simp only [hg, if_true, hf] at hu
            rcases hmm : mapped_of env.ctt.status with _ | m
            · simp only [hmm] at hu
              simp only [db_update_check, db_set_incident, sameKey, hoid, hfid,
                beq_self_eq_true, Bool.and_self, if_true, List.map_cons,
                List.map_nil, List.mem_singleton] at hu
              subst hu
              rfl
            · simp only [hmm] at hu
              by_cases hne : (some m ≠ s.last_shopify_status)
              · rw [if_pos hne] at hu
                by_cases hhas : fulfillment_has_status env.shopify_events m = true <;>
                  · simp only [hhas, if_true, Bool.false_eq_true, if_false] at hu
                    simp only [db_update_check, db_set_incident, sameKey, hoid,
                      hfid, beq_self_eq_true, Bool.and_self, if_true,
                      List.map_cons, List.map_nil, List.mem_singleton] at hu
                    subst hu
                    rfl
              · rw [if_neg hne] at hu
                simp only [db_update_check, db_set_incident, sameKey, hoid, hfid,
                  beq_self_eq_true, Bool.and_self, if_true, List.map_cons,
                  List.map_nil, List.mem_singleton] at hu
                subst hu
                rfl
          · simp only [Bool.not_eq_true] at hf
            simp only [hg, if_true, hf, Bool.false_eq_true, if_false] at hu
            rcases hmm : mapped_of env.ctt.status with _ | m
            · simp only [hmm] at hu
              simp only [db_update_check, db_set_incident, sameKey, hoid, hfid,
                beq_self_eq_true, Bool.and_self, if_true, List.map_cons,
                List.map_nil, List.mem_singleton] at hu
              subst hu
              rfl
            · simp only [hmm] at hu
              by_cases hne : (some m ≠ s.last_shopify_status)
              · rw [if_pos hne] at hu
                by_cases hhas : fulfillment_has_status env.shopify_events m = true <;>
                  · simp only [hhas, if_true, Bool.false_eq_true, if_false] at hu
                    simp only [db_update_check, db_set_incident, sameKey, hoid,
                      hfid, beq_self_eq_true, Bool.and_self, if_true,
                      List.map_cons, List.map_nil, List.mem_singleton] at hu
                    subst hu
                    rfl
              · rw [if_neg hne] at hu
                simp only [db_update_check, db_set_incident, sameKey, hoid, hfid,
                  beq_self_eq_true, Bool.and_self, if_true, List.map_cons,
                  List.map_nil, List.mem_singleton] at hu
                subst hu
                rfl
        · simp only [Bool.not_eq_true] at hg
          simp only [hg, Bool.false_eq_true, if_false] at hu
          rcases hmm : mapped_of env.ctt.status with _ | m
          · simp only [hmm] at hu
            simp only [db_update_check, sameKey, hoid, hfid, beq_self_eq_true,
              Bool.and_self, if_true, List.map_cons, List.map_nil,
              List.mem_singleton] at hu
            subst hu
            rfl
          · simp only [hmm] at hu
            by_cases hne : (some m ≠ s.last_shopify_status)
            · rw [if_pos hne] at hu
              by_cases hhas : fulfillment_has_status env.shopify_events m = true <;>
                · simp only [hhas, if_true, Bool.false_eq_true, if_false] at hu
                  simp only [db_update_check, sameKey, hoid, hfid,
                    beq_self_eq_true, Bool.and_self, if_true, List.map_cons,
                    List.map_nil, List.mem_singleton] at hu
                  subst hu
                  rfl
            · rw [if_neg hne] at hu
              simp only [db_update_check, sameKey, hoid, hfid, beq_self_eq_true,
                Bool.and_self, if_true, List.map_cons, List.map_nil,
                List.mem_singleton] at hu
              subst hu
              rfl
  · intro now oracle table row rest tn msg htn htne horacle
    simp only [run_batch, htn, horacle, if_neg htne]
  · intro now oracle pending
    induction pending with
    | nil =>
      intro table h
      exact ⟨(table, []), rfl⟩
    | cons row rest ih =>
      intro table h
      have hrest : ∀ r ∈ rest, ∀ m, oracle r.order_id r.fulfillment_id ≠ .ledgerDown m :=
        fun r hr m => h r (List.mem_cons_of_mem _ hr) m
      rcases htn : row.tracking_number with _ | tn
      · obtain ⟨p, hp⟩ := ih table hrest
        exact ⟨p, by simp only [run_batch, htn]; exact hp⟩
      · by_cases htne : tn = ""
        · obtain ⟨p, hp⟩ := ih table hrest
          exact ⟨p, by simp only [run_batch, htn, if_pos htne]; exact hp⟩
        · rcases horacle : oracle row.order_id row.fulfillment_id with env | msg | msg
          · obtain ⟨p, hp⟩ := ih ((process_one env table row.order_id
              row.fulfillment_id tn row.shipped_at row.is_incident
              row.last_shopify_status).table) hrest
            refine ⟨(p.1, (process_one env table row.order_id row.fulfillment_id
              tn row.shipped_at row.is_incident
              row.last_shopify_status).created ++ p.2), ?_⟩
            simp only [run_batch, htn, if_neg htne, horacle, hp]
          · obtain ⟨p, hp⟩ := ih (handle_exn table row.order_id row.fulfillment_id
              now row.last_shopify_status msg) hrest
            exact ⟨p, by simp only [run_batch, htn, if_neg htne, horacle]; exact hp⟩
          · exact absurd horacle (h row (List.mem_cons_self _ _) msg)

/-- C10 witness: a two-row batch whose first shipment raises — the batch
still completes, the first row records the error and stays pending for a
later run, and a later clean cycle clears last_error. -/
theorem C10_error_isolation_witness :
    (∀ u ∈ handle_exn
        [⟨1, 1, some "T", none, false, none, false, none, none, none, none,
           none, none, none⟩] 1 1 1000 none "boom",
      sameKey 1 1 u = true →
      u.last_error = some "boom" ∧ u.next_check_at = some (1000 + 30 * 60) ∧
      ∃ s0 ∈ [(⟨1, 1, some "T", none, false, none, false, none, none, none,
        none, none, none, none⟩ : Shipment)], sameKey 1 1 s0 = true ∧
        u.is_delivered = s0.is_delivered) ∧
    (⟨1, 1, some "T", none, false, none, false, none, none, none, none, none,
       some 2800, some "boom"⟩ : Shipment) ∈
      db_get_pending [⟨1, 1, some "T", none, false, none, false, none, none,
        none, none, none, some 2800, some "boom"⟩] 3000 10 ∧
    (∃ p, run_batch 1000
        (fun oid _ => if oid = 1 then .exn "boom" else
          .ok ⟨1000, ⟨none, none⟩, [], fun _ _ => ⟨201, "", none⟩⟩)
        [⟨1, 1, some "T", none, false, none, false, none, none, none, none,
           none, none, none⟩,
         ⟨2, 2, some "U", none, false, none, false, none, none, none, none,
           none, none, none⟩]
        [⟨1, 1, some "T", none, false, none, false, none, none, none, none,
           none, none, none⟩,
         ⟨2, 2, some "U", none, false, none, false, none, none, none, none,
           none, none, none⟩] = .ok p) ∧
    (∀ u ∈ (process_one ⟨5000, ⟨none, none⟩, [], fun _ _ => ⟨201, "", none⟩⟩
        [⟨1, 1, some "T", none, false, none, false, none, none, none, none,
           none, some 2800, some "boom"⟩] 1 1 "T" none false none).table,
      u.last_error = none) := by
  refine ⟨?_, ?_, ?_, ?_⟩
  · intro u hu hk
    exact C10_error_isolation.2.1
      [⟨1, 1, some "T", none, false, none, false, none, none, none, none,
         none, none, none⟩] 1 1 1000 none "boom" u hu hk
  · exact C10_error_isolation.2.2.1
      ⟨1, 1, some "T", none, false, none, false, none, none, none, none, none,
        some 2800, some "boom"⟩
      [⟨1, 1, some "T", none, false, none, false, none, none, none, none, none,
         some 2800, some "boom"⟩] 2800 3000 10 (by decide) rfl rfl
      (by decide) (by decide)
  · exact C10_error_isolation.2.2.2.2.2 1000
      (fun oid _ => if oid = 1 then .exn "boom" else
        .ok ⟨1000, ⟨none, none⟩, [], fun _ _ => ⟨201, "", none⟩⟩)
      [⟨1, 1, some "T", none, false, none, false, none, none, none, none,
         none, none, none⟩,
       ⟨2, 2, some "U", none, false, none, false, none, none, none, none,
         none, none, none⟩]
      [⟨1, 1, some "T", none, false, none, false, none, none, none, none,
         none, none, none⟩,
       ⟨2, 2, some "U", none, false, none, false, none, none, none, none,
         none, none, none⟩]
      (by intro r hr m; fin_cases hr <;> simp)
  · intro u hu
    exact C10_error_isolation.2.2.2.1
      ⟨5000, ⟨none, none⟩, [], fun _ _ => ⟨201, "", none⟩⟩
      ⟨1, 1, some "T", none, false, none, false, none, none, none, none, none,
        some 2800, some "boom"⟩ 1 1 "T" rfl rfl (fun _ _ => rfl) u hu

end UpdateShipping
